import Mathlib

/-!
Shallow embedding of `src/main.rs` (a macroquad + nphysics2d game loop).

Times are modelled in integer milliseconds (`Instant.elapsed().as_millis()`
truncates to whole milliseconds); the `f64` arithmetic of the animation clock
is modelled exactly over `ℚ` (all values occurring are small integers and
their quotients, which `f64` represents exactly at these magnitudes).
The external physics solver (`mechanical_world.step`) is out of scope per the
spec; the frame loop is parametrised over an arbitrary stepping function on
the body set, while everything the repository itself does to the body set
(insert at setup, lookup, queue forces) is embedded concretely.
-/

namespace NewGame

/-- 2-d vector (`na::Vector2<f32>` / force and position components). -/
abbrev Vec2 : Type := ℚ × ℚ

/-- Colours used by the loop (`WHITE`, `RED`). -/
inductive Color where
  | white
  | red
deriving DecidableEq

/-- `nphysics2d::math::ForceType`; the code only ever uses
`AccelerationChange`. -/
inductive ForceType where
  | force
  | impulse
  | accelerationChange
  | velocityChange
deriving DecidableEq

/-- A rigid body as the repository uses it: built by
`RigidBodyDesc::new().translation(t).mass(m).build()`, queried for its
position, and given queued forces via `apply_force`. -/
structure Body where
  pos : Vec2
  mass : ℚ
  forces : List (Vec2 × ForceType)
deriving DecidableEq

/-- `body.apply_force(part, force, force_type, auto_wake)` queues a force to
be integrated by the next `step()`. -/
def Body.apply_force (b : Body) (_part : Nat) (f : Vec2) (ty : ForceType)
    (_auto_wake : Bool) : Body :=
  { b with forces := b.forces ++ [(f, ty)] }

/-- A collider as built by
`ColliderDesc::new(ShapeHandle::new(Cuboid::new(half_extents))).density(d).translation(-Vector2::y()).build(body_part)`. -/
structure Collider where
  body_part : Nat
  half_extents : Vec2
  density : ℚ
  offset : Vec2
deriving DecidableEq

/-- `DefaultBodySet` / `DefaultColliderSet` storage: an arena into which the
session only ever inserts; handles are insertion indices. -/
abbrev Arena (α : Type) : Type := List α

/-- `bodies.insert(desc)`: appends and returns the handle of the new entry. -/
def Arena.insert {α : Type} (a : Arena α) (x : α) : Arena α × Nat :=
  (a ++ [x], a.length)

/-- `bodies.rigid_body(handle)` / `bodies.get(handle)`: a fallible lookup
(`None` models the `unwrap` panic branch). -/
def Arena.lookup {α : Type} (a : Arena α) (h : Nat) : Option α :=
  a.get? h

/-- `struct GameObject` of `src/main.rs`. -/
structure GameObject where
  body_handle : Nat
  collider_handle : Nat
  width : ℚ
  height : ℚ
deriving DecidableEq

/-- `GameObject::new`: inserts a rigid body at `(x, y)` with the given mass,
then a cuboid collider with half-extents `(width, height)`, the given
density, and the fixed `-Vector2::y()` translation offset. -/
def GameObject.new (x y : ℚ) (bodies : Arena Body) (colliders : Arena Collider)
    (width height mass density : ℚ) :
    GameObject × Arena Body × Arena Collider :=
  let rigid_body_desc : Body := { pos := (x, y), mass := mass, forces := [] }
  let (bodies1, body_handle) := bodies.insert rigid_body_desc
  let collider_desc : Collider :=
    { body_part := body_handle, half_extents := (width, height),
      density := density, offset := (0, -1) }
  let (colliders1, collider_handle) := colliders.insert collider_desc
  (⟨body_handle, collider_handle, width, height⟩, bodies1, colliders1)

/-- Render commands issued by the loop body, in issue order:
`clear_background`, `draw_rectangle`, `draw_texture_ex`.  A texture is
identified by its (animation index, frame index) pair; `draw_texture_ex`
records the top-left position, the destination size and whether the source
rect was horizontally flipped. -/
inductive RenderCmd where
  | clear_background : Color → RenderCmd
  | draw_rectangle : ℚ → ℚ → ℚ → ℚ → Color → RenderCmd
  | draw_texture_ex : Nat → Nat → ℚ → ℚ → ℚ → ℚ → Bool → RenderCmd
deriving DecidableEq

/-- `GameObject::debug_draw`: looks the body up (unwrap modelled as `Option`)
and draws a rectangle at `(pos.x - width, pos.y - height)` of size
`(width, height)` in red. -/
def GameObject.debug_draw (go : GameObject) (bodies : Arena Body) :
    Option RenderCmd :=
  (bodies.lookup go.body_handle).map fun b =>
    .draw_rectangle (b.pos.1 - go.width) (b.pos.2 - go.height)
      go.width go.height .red

/-- `GameObject::rigid_body`: the unwrap-ped body lookup. -/
def GameObject.rigid_body (go : GameObject) (bodies : Arena Body) :
    Option Body :=
  bodies.lookup go.body_handle

/-- Frame counts of the three animation sequences loaded in `main`:
idle has 4 textures, run 5, attack1 5. -/
def animationLengths : List Nat := [4, 5, 5]

/-- `let step = 200.0;` — the per-frame display duration in milliseconds. -/
def step : ℚ := 200

/-- The animation-clock fragment of the loop body (lines 115–122): given the
active sequence length `n`, frame duration `d` and the loop-start instant
`timeline` plus the current instant `now` (both in ms), computes
`new_frame = elapsed / d` in `f64` and compares the UNFLOORED quotient with
`n - 1`; on wrap it returns the refreshed timeline and frame 0, otherwise it
keeps the timeline and truncates `new_frame` to an index. -/
def clockQuery (n : Nat) (d : ℚ) (timeline now : Nat) : Nat × Nat :=
  let elapsed : ℚ := ((now - timeline : Nat) : ℚ)
  let new_frame : ℚ := elapsed / d
  if ((n - 1 : Nat) : ℚ) < new_frame then
    (now, 0)
  else
    (timeline, (Int.floor new_frame).toNat)

/-- The four keys the loop samples: `Right`, `Left`, `Space`, `Z`. -/
structure Keys where
  right : Bool
  left : Bool
  space : Bool
  z : Bool
deriving DecidableEq

/-- Output of the per-frame input handling: the forces queued on the hero's
body (in application order), the new active-sequence selector and the new
flip flag. -/
structure InputResult where
  forces : List Vec2
  current_animation : Nat
  flip : Bool
deriving DecidableEq

/-- The `if Right / else if Left / else` chain (lines 141–153): right gives a
`(250, 0)` force, run animation and no flip; left gives `(-250, 0)`, flip and
run; otherwise no force, idle animation and the flip flag is left alone. -/
def horizontalPhase (k : Keys) (flip0 : Bool) : InputResult :=
  if k.right then ⟨[(250, 0)], 1, false⟩
  else if k.left then ⟨[(-250, 0)], 1, true⟩
  else ⟨[], 0, flip0⟩

/-- The whole input phase (lines 141–161): the horizontal chain, then
`Space` appends an upward `(0, -250)` force, then `Z` overrides the
animation selector with 2 (attack). -/
def inputPhase (k : Keys) (flip0 : Bool) : InputResult :=
  let r1 := horizontalPhase k flip0
  let r2 := if k.space then { r1 with forces := r1.forces ++ [(0, -250)] } else r1
  if k.z then { r2 with current_animation := 2 } else r2

/-- The mutable state the loop body threads from one iteration to the next:
the two arenas, `current_frame`, `timeline` (loop-start instant, ms),
`current_animation` and `flip`. -/
structure LoopState where
  bodies : Arena Body
  colliders : Arena Collider
  current_frame : Nat
  timeline : Nat
  current_animation : Nat
  flip : Bool
deriving DecidableEq

/-- Queues the input phase's forces on the hero's body, in order; each one
goes through `hero.rigid_body_mut(&mut bodies)` (an unwrap-ped `get_mut`,
modelled as `Option`) and
`apply_force(0, force, ForceType::AccelerationChange, false)`. -/
def applyForces (h : Nat) (fs : List Vec2) (bodies : Arena Body) :
    Option (Arena Body) :=
  match fs with
  | [] => some bodies
  | f :: rest =>
      (bodies.lookup h).bind fun b =>
        applyForces h rest (bodies.set h (b.apply_force 0 f .accelerationChange false))

/-- One iteration of the `loop { ... }` body, parametrised over the external
solver's `mechanical_world.step` (`stepW`, acting on the body set) and the
loaded textures' pixel sizes (`texSize`, per animation and frame index).
In source order: step the world; clear; debug-draw ground, block, hero;
compute the animation frame (possibly refreshing `timeline`); index
`animations[current_animation][current_frame]`; read the hero position and
draw the sprite (flipped source rect if `flip`); sample keys, select the next
animation and queue forces.  `none` models a panic (failed unwrap or
out-of-bounds index). -/
def frameBody (stepW : Arena Body → Arena Body) (texSize : Nat → Nat → Vec2)
    (ground block hero : GameObject) (k : Keys) (now : Nat) (st : LoopState) :
    Option (LoopState × List RenderCmd) :=
  let bodies1 := stepW st.bodies
  (ground.debug_draw bodies1).bind fun r1 =>
  (block.debug_draw bodies1).bind fun r2 =>
  (hero.debug_draw bodies1).bind fun r3 =>
  (animationLengths.get? st.current_animation).bind fun animLen =>
  let timeline1 := (clockQuery animLen step st.timeline now).1
  let current_frame1 := (clockQuery animLen step st.timeline now).2
  if current_frame1 < animLen then
    (hero.rigid_body bodies1).bind fun heroBody =>
    let pos := heroBody.pos
    let tex := texSize st.current_animation current_frame1
    let sprite := RenderCmd.draw_texture_ex st.current_animation current_frame1
        (pos.1 - tex.1 / 2) (pos.2 - tex.2 / 2) tex.1 tex.2 st.flip
    let inp := inputPhase k st.flip
    (applyForces hero.body_handle inp.forces bodies1).bind fun bodies2 =>
    some ({ st with
              bodies := bodies2,
              current_frame := current_frame1,
              timeline := timeline1,
              current_animation := inp.current_animation,
              flip := inp.flip },
          [.clear_background .white, r1, r2, r3, sprite])
  else
    none

/-- The setup part of `main`: ground, block and hero are created, in that
order, into the fresh body and collider sets. -/
def mainSetup (screen_width : ℚ) :
    GameObject × GameObject × GameObject × Arena Body × Arena Collider :=
  let bodies : Arena Body := []
  let colliders : Arena Collider := []
  let (ground, bodies, colliders) :=
    GameObject.new (screen_width / 2) 480 bodies colliders screen_width 10 0 0
  let (block, bodies, colliders) :=
    GameObject.new 100 400 bodies colliders 10 10 75 1
  let (hero, bodies, colliders) :=
    GameObject.new 10 350 bodies colliders 10 10 75 1
  (ground, block, hero, bodies, colliders)

/-- The loop state as `main` initialises it just before entering the loop:
`current_frame = 0`, `timeline = Instant::now()` (the instant `t0`),
`current_animation = 0`, `flip = false`. -/
def mainInit (screen_width : ℚ) (t0 : Nat) :
    GameObject × GameObject × GameObject × LoopState :=
  let (ground, block, hero, bodies, colliders) := mainSetup screen_width
  (ground, block, hero,
   { bodies := bodies, colliders := colliders, current_frame := 0,
     timeline := t0, current_animation := 0, flip := false })

/-- Runs the loop body over a list of per-frame inputs (sampled keys and the
current instant), threading the state. -/
def runFrames (stepW : Arena Body → Arena Body) (texSize : Nat → Nat → Vec2)
    (ground block hero : GameObject) (inputs : List (Keys × Nat))
    (st : LoopState) : Option LoopState :=
  match inputs with
  | [] => some st
  | (k, now) :: rest =>
      (frameBody stepW texSize ground block hero k now st).bind fun p =>
        runFrames stepW texSize ground block hero rest p.1

/-! Concrete data for exercising the loop body: the session state as `main`
builds it for an 800-pixel-wide screen with the loop entered at instant 0,
an arbitrary 50×37 texture size, and two key snapshots. -/

/-- A fixed texture size for concrete runs (pixel dimensions are chosen by
the loaded assets and do not affect any property proved here). -/
def testTexSize : Nat → Nat → Vec2 := fun _ _ => (50, 37)

/-- Keys snapshot: right, jump and attack held. -/
def testKeys : Keys := ⟨true, false, true, true⟩

/-- Keys snapshot: nothing held. -/
def testKeysNone : Keys := ⟨false, false, false, false⟩

/-- The ground object as `mainSetup 800` creates it. -/
def testGround : GameObject := ⟨0, 0, 800, 10⟩

/-- The block object as `mainSetup 800` creates it. -/
def testBlock : GameObject := ⟨1, 1, 10, 10⟩

/-- The hero object as `mainSetup 800` creates it. -/
def testHero : GameObject := ⟨2, 2, 10, 10⟩

/-- The body set as `mainSetup 800` creates it. -/
def testBodies : Arena Body :=
  [⟨(400, 480), 0, []⟩, ⟨(100, 400), 75, []⟩, ⟨(10, 350), 75, []⟩]

/-- The collider set as `mainSetup 800` creates it. -/
def testColliders : Arena Collider :=
  [⟨0, (800, 10), 0, (0, -1)⟩, ⟨1, (10, 10), 1, (0, -1)⟩, ⟨2, (10, 10), 1, (0, -1)⟩]

/-- The loop state on entry to the first frame. -/
def testState : LoopState := ⟨testBodies, testColliders, 0, 0, 0, false⟩

/-- The hero body after the first frame under `testKeys`: both the rightward
and the upward force are queued. -/
def testHeroAfter : Body :=
  ⟨(10, 350), 75, [((250, 0), .accelerationChange), ((0, -250), .accelerationChange)]⟩

/-- The loop state after one `testKeys` frame at instant 100 (with identity
physics step): attack animation selected, forces queued on the hero. -/
def testStateAfter : LoopState :=
  ⟨[⟨(400, 480), 0, []⟩, ⟨(100, 400), 75, []⟩, testHeroAfter], testColliders, 0, 0, 2, false⟩

/-- The render commands of that frame: clear, three debug rectangles, and
the idle frame-0 sprite at the hero position. -/
def testCmds : List RenderCmd :=
  [.clear_background .white,
   .draw_rectangle (-400) 470 800 10 .red,
   .draw_rectangle 90 390 10 10 .red,
   .draw_rectangle 0 340 10 10 .red,
   .draw_texture_ex 0 0 (-15) (663/2) 50 37 false]

/-! Helper lemmas about the animation clock. -/

lemma clockQuery_pos_cases (n : Nat) (d : ℚ) (timeline now : Nat) :
    clockQuery n d timeline now = (now, 0) ∨
    clockQuery n d timeline now =
      (timeline, (Int.floor (((now - timeline : Nat) : ℚ) / d)).toNat) := by
  unfold clockQuery
  by_cases h : ((n - 1 : Nat) : ℚ) < ((now - timeline : Nat) : ℚ) / d
  · left
    rw [if_pos h]
  · right
    rw [if_neg h]

/-- When the frame duration is a positive integer number of milliseconds, the
clock is pure natural-number arithmetic: it wraps exactly when the elapsed
time strictly exceeds `(n - 1) * d`, and otherwise floors the quotient. -/
lemma clockQuery_natCast (n dn timeline now : Nat) (hd : 0 < dn) :
    clockQuery n (dn : ℚ) timeline now =
      if (n - 1) * dn < now - timeline then (now, 0)
      else (timeline, (now - timeline) / dn) := by
  have hdq : (0 : ℚ) < (dn : ℚ) := by exact_mod_cast hd
  have hguard : (((n - 1 : Nat) : ℚ) < ((now - timeline : Nat) : ℚ) / (dn : ℚ)) ↔
      ((n - 1) * dn < now - timeline) := by
    rw [lt_div_iff₀ hdq]
    exact_mod_cast Iff.rfl
  unfold clockQuery
  by_cases h : (n - 1) * dn < now - timeline
  · rw [if_pos (hguard.mpr h), if_pos h]
  · rw [if_neg (fun hx => h (hguard.mp hx)), if_neg h]
    rw [Rat.floor_natCast_div_natCast, ← Int.natCast_div, Int.toNat_natCast]

/-- The frame duration constant as a natural-number cast. -/
lemma step_eq_natCast : step = ((200 : Nat) : ℚ) := by
  norm_num [step]

/-- Evaluation form of the clock at the concrete 200 ms frame duration. -/
lemma clockQuery_step_eval (n timeline now : Nat) :
    clockQuery n step timeline now =
      if (n - 1) * 200 < now - timeline then (now, 0)
      else (timeline, (now - timeline) / 200) := by
  rw [step_eq_natCast, clockQuery_natCast]
  norm_num

/-! Claim C1. -/

/-- Counterexample to claim C1: with the 4-frame idle sequence and the 200 ms
frame duration, an elapsed time of 750 ms has floored quotient 3, which does
NOT exceed `n - 1 = 3`; the claim therefore demands index 3 with no reset,
but the code compares the unfloored quotient 3.75 with 3, wraps, refreshes
the loop-start instant and returns index 0. -/
theorem clock_750ms_wraps_counterexample :
    Int.floor ((750 : ℚ) / step) = 3 ∧ ¬ (3 : Nat) > 4 - 1 ∧
    clockQuery 4 step 0 750 = (750, 0) ∧ clockQuery 4 step 0 750 ≠ (0, 3) := by
  refine ⟨?_, by norm_num, ?_, ?_⟩
  · rw [step_eq_natCast]
    rw [show (750 : ℚ) = ((750 : Nat) : ℚ) by norm_num]
    rw [Rat.floor_natCast_div_natCast]
    norm_num
  · rw [clockQuery_step_eval]
    norm_num
  · rw [clockQuery_step_eval]
    norm_num

/-- Claim C1 (amended): the clock compares the UNFLOORED quotient
`elapsed / d` against `n - 1`; it resets the loop-start instant and returns
index 0 exactly when `elapsed > (n - 1) * d`, and otherwise returns the
floored quotient; in particular, for a 4-frame sequence at 200 ms per frame,
750 ms elapsed exceeds `3 * 200 = 600`, so the clock wraps: it resets the
loop start to "now" and yields index 0, not 3. -/
theorem clock_wrap_on_unfloored_quotient (n : Nat) (d : ℚ) (timeline now : Nat)
    (hd : 0 < d) :
    (((n - 1 : Nat) : ℚ) * d < ((now - timeline : Nat) : ℚ) →
      clockQuery n d timeline now = (now, 0)) ∧
    (((now - timeline : Nat) : ℚ) ≤ ((n - 1 : Nat) : ℚ) * d →
      clockQuery n d timeline now =
        (timeline, (Int.floor (((now - timeline : Nat) : ℚ) / d)).toNat)) ∧
    clockQuery 4 step 0 750 = (750, 0) := by
  refine ⟨?_, ?_, ?_⟩
  · intro h
    unfold clockQuery
    rw [if_pos ((lt_div_iff₀ hd).mpr h)]
  · intro h
    unfold clockQuery
    rw [if_neg (by rw [lt_div_iff₀ hd]; exact not_lt.mpr h)]
  · rw [clockQuery_step_eval]
    norm_num

/-- Witness for the amended C1 theorem at `n = 4`, `d = 200`, elapsed 750 ms:
the wrap branch fires since `750 > 3 * 200`. -/
theorem clock_wrap_on_unfloored_quotient_witness :
    clockQuery 4 (200 : ℚ) 0 750 = (750, 0) := by
  have h := clock_wrap_on_unfloored_quotient 4 (200 : ℚ) 0 750 (by norm_num)
  exact h.1 (by norm_num)

/-! Claim C2. -/

/-- Claim C2: for every elapsed duration (any pair of instants), frame
duration `d > 0` and active sequence length `n ≥ 1`, the frame index the
animation clock produces lies in `[0, n - 1]`. -/
theorem clock_index_in_range (n : Nat) (d : ℚ) (timeline now : Nat)
    (hn : 1 ≤ n) (hd : 0 < d) :
    (clockQuery n d timeline now).2 ≤ n - 1 := by
  unfold clockQuery
  by_cases h : ((n - 1 : Nat) : ℚ) < ((now - timeline : Nat) : ℚ) / d
  · rw [if_pos h]
    exact Nat.zero_le _
  · rw [if_neg h]
    have hle : ((now - timeline : Nat) : ℚ) / d ≤ ((n - 1 : Nat) : ℚ) :=
      not_lt.mp h
    have hfloor : Int.floor (((now - timeline : Nat) : ℚ) / d) ≤ ((n - 1 : Nat) : ℤ) := by
      calc Int.floor (((now - timeline : Nat) : ℚ) / d)
          ≤ Int.floor (((n - 1 : Nat) : ℚ)) := Int.floor_le_floor hle
        _ = ((n - 1 : Nat) : ℤ) := Int.floor_natCast _
    exact Int.toNat_le.mpr hfloor

/-- Witness for C2 at `n = 4`, `d = 200`, elapsed 750 ms. -/
theorem clock_index_in_range_witness :
    (clockQuery 4 (200 : ℚ) 0 750).2 ≤ 4 - 1 :=
  clock_index_in_range 4 (200 : ℚ) 0 750 (by norm_num) (by norm_num)

/-! Claim C5. -/

/-- Claim C5: if the elapsed time at instant `t1` exceeds `n * d`, the clock
wraps there: the loop-start instant is reset to `t1` and index 0 is
returned; a following query at any instant `t2` with elapsed-since-reset
less than `d` again yields index 0. -/
theorem clock_loops_past_sequence_end (n : Nat) (dn : Nat) (timeline t1 t2 : Nat)
    (hn : 1 ≤ n) (hd : 0 < dn) (hpast : n * dn < t1 - timeline)
    (horder : t1 ≤ t2) (hnext : t2 - t1 < dn) :
    clockQuery n (dn : ℚ) timeline t1 = (t1, 0) ∧
    (clockQuery n (dn : ℚ) t1 t2).2 = 0 := by
  constructor
  · rw [clockQuery_natCast n dn timeline t1 hd]
    have h1 : (n - 1) * dn < t1 - timeline :=
      lt_of_le_of_lt (Nat.mul_le_mul_right dn (Nat.sub_le n 1)) hpast
    rw [if_pos h1]
  · rw [clockQuery_natCast n dn t1 t2 hd]
    by_cases h : (n - 1) * dn < t2 - t1
    · rw [if_pos h]
    · rw [if_neg h]
      exact Nat.div_eq_of_lt hnext

/-- Witness for C5: sequence length 4 at 200 ms per frame; the first query at
900 ms elapsed (`> 4 * 200`) wraps and resets, the next query 100 ms later
yields index 0. -/
theorem clock_loops_past_sequence_end_witness :
    clockQuery 4 ((200 : Nat) : ℚ) 0 900 = (900, 0) ∧
    (clockQuery 4 ((200 : Nat) : ℚ) 900 1000).2 = 0 :=
  clock_loops_past_sequence_end 4 200 0 900 1000 (by norm_num) (by norm_num)
    (by norm_num) (by norm_num) (by norm_num)

/-! Claim C4. -/

/-- Claim C4: sequence selection and force application are independent.  When
move-right and attack are held together, the active sequence resolves to
attack (selector 2) while the rightward `(250, 0)` force is still queued; and
whenever jump is held, the upward `(0, -250)` force is queued in addition,
whatever the horizontal keys did. -/
theorem attack_overrides_selection_force_independent (k : Keys) (flip0 : Bool) :
    (k.right = true → k.z = true →
      (inputPhase k flip0).current_animation = 2 ∧
      ((250 : ℚ), (0 : ℚ)) ∈ (inputPhase k flip0).forces) ∧
    (k.space = true → ((0 : ℚ), (-250 : ℚ)) ∈ (inputPhase k flip0).forces) := by
  rcases k with ⟨r, l, s, z⟩
  cases r <;> cases l <;> cases s <;> cases z <;>
    simp [inputPhase, horizontalPhase]

/-- Witness for C4: right, jump and attack all held; the selector resolves to
attack while both the rightward and the upward force are queued. -/
theorem attack_overrides_selection_force_independent_witness :
    (inputPhase ⟨true, false, true, true⟩ false).current_animation = 2 ∧
    ((250 : ℚ), (0 : ℚ)) ∈ (inputPhase ⟨true, false, true, true⟩ false).forces ∧
    ((0 : ℚ), (-250 : ℚ)) ∈ (inputPhase ⟨true, false, true, true⟩ false).forces := by
  have h := attack_overrides_selection_force_independent ⟨true, false, true, true⟩ false
  exact ⟨(h.1 rfl rfl).1, (h.1 rfl rfl).2, h.2 rfl⟩

/-! Claim C7. -/

/-- Claim C7: in a frame where neither move-right nor move-left is held, the
horizontal chain queues no force and selects idle (selector 0) before the
attack override, the flip flag is left at its previous value, and every force
queued this frame (only the jump force is possible) has zero horizontal
component. -/
theorem no_horizontal_input_is_idle_and_keeps_facing (k : Keys) (flip0 : Bool)
    (hr : k.right = false) (hl : k.left = false) :
    (horizontalPhase k flip0).forces = [] ∧
    (horizontalPhase k flip0).current_animation = 0 ∧
    (horizontalPhase k flip0).flip = flip0 ∧
    (∀ f ∈ (inputPhase k flip0).forces, f.1 = 0) := by
  rcases k with ⟨r, l, s, z⟩
  cases hr
  cases hl
  cases s <;> cases z <;> simp [inputPhase, horizontalPhase]

/-- Witness for C7: only jump held while facing left; the selection is idle,
facing stays left and the only queued force is vertical. -/
theorem no_horizontal_input_is_idle_and_keeps_facing_witness :
    (horizontalPhase ⟨false, false, true, false⟩ true).forces = [] ∧
    (horizontalPhase ⟨false, false, true, false⟩ true).current_animation = 0 ∧
    (horizontalPhase ⟨false, false, true, false⟩ true).flip = true ∧
    (∀ f ∈ (inputPhase ⟨false, false, true, false⟩ true).forces, f.1 = 0) :=
  no_horizontal_input_is_idle_and_keeps_facing ⟨false, false, true, false⟩ true
    rfl rfl

/-! Helper lemmas about the loop body. -/

/-- Full inversion of a successful loop-body iteration: every unwrap
succeeded, the frame index is within the active sequence, the new state's
fields are as assigned, and the command list is the clear, the three debug
rectangles and the sprite draw in issue order. -/
lemma frameBody_inv {stepW : Arena Body → Arena Body} {texSize : Nat → Nat → Vec2}
    {ground block hero : GameObject} {k : Keys} {now : Nat} {st : LoopState}
    {st' : LoopState} {cmds : List RenderCmd}
    (h : frameBody stepW texSize ground block hero k now st = some (st', cmds)) :
    ∃ r1 r2 r3 animLen heroBody bodies2,
      ground.debug_draw (stepW st.bodies) = some r1 ∧
      block.debug_draw (stepW st.bodies) = some r2 ∧
      hero.debug_draw (stepW st.bodies) = some r3 ∧
      animationLengths.get? st.current_animation = some animLen ∧
      (clockQuery animLen step st.timeline now).2 < animLen ∧
      hero.rigid_body (stepW st.bodies) = some heroBody ∧
      applyForces hero.body_handle (inputPhase k st.flip).forces (stepW st.bodies)
        = some bodies2 ∧
      st' = { st with
                bodies := bodies2,
                current_frame := (clockQuery animLen step st.timeline now).2,
                timeline := (clockQuery animLen step st.timeline now).1,
                current_animation := (inputPhase k st.flip).current_animation,
                flip := (inputPhase k st.flip).flip } ∧
      cmds = [.clear_background .white, r1, r2, r3,
              .draw_texture_ex st.current_animation
                (clockQuery animLen step st.timeline now).2
                (heroBody.pos.1 -
                  (texSize st.current_animation
                    (clockQuery animLen step st.timeline now).2).1 / 2)
                (heroBody.pos.2 -
                  (texSize st.current_animation
                    (clockQuery animLen step st.timeline now).2).2 / 2)
                (texSize st.current_animation
                  (clockQuery animLen step st.timeline now).2).1
                (texSize st.current_animation
                  (clockQuery animLen step st.timeline now).2).2
                st.flip] := by
  unfold frameBody at h
  simp only [Option.bind_eq_some] at h
  obtain ⟨r1, hr1, r2, hr2, r3, hr3, animLen, hal, h⟩ := h
  by_cases hf : (clockQuery animLen step st.timeline now).2 < animLen
  · rw [if_pos hf] at h
    simp only [Option.bind_eq_some] at h
    obtain ⟨heroBody, hhb, bodies2, hforces, hfin⟩ := h
    refine ⟨r1, r2, r3, animLen, heroBody, bodies2, hr1, hr2, hr3, hal, hf, hhb,
      hforces, ?_, ?_⟩
    · injection hfin with hfin
      injection hfin with h1 h2
      exact h1.symm
    · injection hfin with hfin
      injection hfin with h1 h2
      exact h2.symm
  · rw [if_neg hf] at h
    exact absurd h (by simp)

/-- The first projection of a clock query: either the loop-start instant is
kept, or the wrap guard held and it was refreshed to `now`. -/
lemma clockQuery_fst (n : Nat) (d : ℚ) (timeline now : Nat) :
    (clockQuery n d timeline now).1 = timeline ∨
    (((n - 1 : Nat) : ℚ) < ((now - timeline : Nat) : ℚ) / d ∧
      (clockQuery n d timeline now).1 = now) := by
  unfold clockQuery
  by_cases h : ((n - 1 : Nat) : ℚ) < ((now - timeline : Nat) : ℚ) / d
  · right
    rw [if_pos h]
    exact ⟨h, rfl⟩
  · left
    rw [if_neg h]

/-- Evaluation of one loop-body iteration on the concrete session state with
right, jump and attack held at instant 100: no wrap (idle frame 0 is shown),
both forces are queued on the hero, and attack is selected for the next
frame. -/
lemma testFrame_eq :
    frameBody id testTexSize testGround testBlock testHero testKeys 100 testState =
      some (testStateAfter, testCmds) := by
  norm_num [frameBody, testTexSize, testGround, testBlock, testHero, testKeys,
    testState, testBodies, testColliders, GameObject.debug_draw,
    GameObject.rigid_body, Arena.lookup, animationLengths, clockQuery_step_eval,
    inputPhase, horizontalPhase, applyForces, Body.apply_force, testStateAfter,
    testCmds, testHeroAfter, List.set]

/-- The same iteration with no key held: the state is unchanged (idle stays
selected, no force is queued) and the very same commands are issued. -/
lemma testFrameNone_eq :
    frameBody id testTexSize testGround testBlock testHero testKeysNone 100 testState =
      some (testState, testCmds) := by
  norm_num [frameBody, testTexSize, testGround, testBlock, testHero, testKeysNone,
    testState, testBodies, testColliders, GameObject.debug_draw,
    GameObject.rigid_body, Arena.lookup, animationLengths, clockQuery_step_eval,
    inputPhase, horizontalPhase, applyForces, testCmds]

/-! Claim C3. -/

/-- Claim C3: within one loop iteration the physics step runs before the
hero's position is read for the sprite render, and the input phase's forces
are applied only afterwards: the sprite command's position is computed from
the hero body looked up in `stepW st.bodies` (the world just after this
frame's step), and the frame's final body set is exactly that stepped world
with this frame's input forces queued after the fact. -/
theorem render_position_is_post_step_pre_force
    {stepW : Arena Body → Arena Body} {texSize : Nat → Nat → Vec2}
    {ground block hero : GameObject} {k : Keys} {now : Nat} {st : LoopState}
    {st' : LoopState} {cmds : List RenderCmd}
    (h : frameBody stepW texSize ground block hero k now st = some (st', cmds)) :
    ∃ heroBody,
      hero.rigid_body (stepW st.bodies) = some heroBody ∧
      cmds.get? 4 = some (.draw_texture_ex st.current_animation st'.current_frame
        (heroBody.pos.1 - (texSize st.current_animation st'.current_frame).1 / 2)
        (heroBody.pos.2 - (texSize st.current_animation st'.current_frame).2 / 2)
        (texSize st.current_animation st'.current_frame).1
        (texSize st.current_animation st'.current_frame).2 st.flip) ∧
      applyForces hero.body_handle (inputPhase k st.flip).forces (stepW st.bodies)
        = some st'.bodies := by
  obtain ⟨r1, r2, r3, animLen, heroBody, bodies2, _, _, _, _, _, hhb, hforces,
    hst, hcmds⟩ := frameBody_inv h
  subst hst
  subst hcmds
  exact ⟨heroBody, hhb, rfl, hforces⟩

/-- Witness for C3 on the concrete first frame. -/
theorem render_position_is_post_step_pre_force_witness :
    ∃ heroBody,
      testHero.rigid_body (id testState.bodies) = some heroBody ∧
      testCmds.get? 4 = some (.draw_texture_ex testState.current_animation
        testStateAfter.current_frame
        (heroBody.pos.1 -
          (testTexSize testState.current_animation testStateAfter.current_frame).1 / 2)
        (heroBody.pos.2 -
          (testTexSize testState.current_animation testStateAfter.current_frame).2 / 2)
        (testTexSize testState.current_animation testStateAfter.current_frame).1
        (testTexSize testState.current_animation testStateAfter.current_frame).2
        testState.flip) ∧
      applyForces testHero.body_handle
        (inputPhase testKeys testState.flip).forces (id testState.bodies)
        = some testStateAfter.bodies :=
  render_position_is_post_step_pre_force testFrame_eq

/-! Claim C6. -/

/-- Claim C6: the input phase's animation-selector assignments do not touch
the timeline: two iterations from the same state at the same instant that
differ only in the sampled keys produce the same loop-start instant, and the
loop-start instant changes at all only when the clock's wrap guard fired, in
which case it was refreshed to `now`. -/
theorem sequence_switch_preserves_timeline
    {stepW : Arena Body → Arena Body} {texSize : Nat → Nat → Vec2}
    {ground block hero : GameObject} {k kAlt : Keys} {now : Nat} {st : LoopState}
    {st' stAlt : LoopState} {cmds cmdsAlt : List RenderCmd}
    (h : frameBody stepW texSize ground block hero k now st = some (st', cmds))
    (hAlt : frameBody stepW texSize ground block hero kAlt now st = some (stAlt, cmdsAlt)) :
    st'.timeline = stAlt.timeline ∧
    (st'.timeline ≠ st.timeline →
      ∃ animLen, animationLengths.get? st.current_animation = some animLen ∧
        ((animLen - 1 : Nat) : ℚ) < ((now - st.timeline : Nat) : ℚ) / step ∧
        st'.timeline = now) := by
  obtain ⟨r1, r2, r3, animLen, heroBody, bodies2, _, _, _, hal, _, _, _,
    hst, _⟩ := frameBody_inv h
  obtain ⟨s1, s2, s3, animLenAlt, heroBodyAlt, bodiesAlt, _, _, _, halAlt, _, _, _,
    hstAlt, _⟩ := frameBody_inv hAlt
  have hsame : animLenAlt = animLen := by
    rw [hal] at halAlt
    exact (Option.some.inj halAlt).symm
  subst hsame
  subst hst
  subst hstAlt
  constructor
  · rfl
  · intro hne
    rcases clockQuery_fst animLenAlt step st.timeline now with hkeep | ⟨hguard, hwrap⟩
    · exact absurd hkeep hne
    · exact ⟨animLenAlt, hal, hguard, hwrap⟩

/-- Witness for C6: the concrete first frame run once with keys held and once
with none; the resulting loop-start instants agree. -/
theorem sequence_switch_preserves_timeline_witness :
    testStateAfter.timeline = testState.timeline ∧
    (testStateAfter.timeline ≠ testState.timeline →
      ∃ animLen, animationLengths.get? testState.current_animation = some animLen ∧
        ((animLen - 1 : Nat) : ℚ) < ((100 - testState.timeline : Nat) : ℚ) / step ∧
        testStateAfter.timeline = 100) :=
  sequence_switch_preserves_timeline testFrame_eq testFrameNone_eq

/-! Claim C9. -/

/-- Claim C9: `debug_draw` looks the entity's body up in the world and issues
a rectangle draw call of the entity's half-extent size at the looked-up
transform; and every loop iteration issues exactly such a call for each of
the three entities (commands 1, 2, 3) against the just-stepped world. -/
theorem debug_draw_rect_at_transform
    {stepW : Arena Body → Arena Body} {texSize : Nat → Nat → Vec2}
    {ground block hero : GameObject} {k : Keys} {now : Nat} {st : LoopState}
    {st' : LoopState} {cmds : List RenderCmd}
    (h : frameBody stepW texSize ground block hero k now st = some (st', cmds)) :
    (∀ (go : GameObject) (bodies : Arena Body) (b : Body),
        bodies.lookup go.body_handle = some b →
        go.debug_draw bodies = some (.draw_rectangle (b.pos.1 - go.width)
          (b.pos.2 - go.height) go.width go.height .red)) ∧
    cmds.get? 1 = ground.debug_draw (stepW st.bodies) ∧
    cmds.get? 2 = block.debug_draw (stepW st.bodies) ∧
    cmds.get? 3 = hero.debug_draw (stepW st.bodies) := by
  obtain ⟨r1, r2, r3, animLen, heroBody, bodies2, hr1, hr2, hr3, _, _, _, _,
    _, hcmds⟩ := frameBody_inv h
  subst hcmds
  refine ⟨?_, hr1.symm, hr2.symm, hr3.symm⟩
  intro go bodies b hb
  unfold GameObject.debug_draw
  rw [hb]
  rfl

/-- Witness for C9 on the concrete first frame: the three rectangle commands
are the entities' debug draws against the (identity-)stepped world. -/
theorem debug_draw_rect_at_transform_witness :
    (∀ (go : GameObject) (bodies : Arena Body) (b : Body),
        bodies.lookup go.body_handle = some b →
        go.debug_draw bodies = some (.draw_rectangle (b.pos.1 - go.width)
          (b.pos.2 - go.height) go.width go.height .red)) ∧
    testCmds.get? 1 = testGround.debug_draw (id testState.bodies) ∧
    testCmds.get? 2 = testBlock.debug_draw (id testState.bodies) ∧
    testCmds.get? 3 = testHero.debug_draw (id testState.bodies) :=
  debug_draw_rect_at_transform testFrame_eq

/-! Totality of the loop body: with the session's three-entity body set, every
unwrap and every index is in bounds, so a whole session run never hits an
error branch. -/

/-- The clock's frame index never exceeds `n - 1` (no hypotheses needed:
the wrap branch returns 0 and the other branch is capped by the guard). -/
lemma clockQuery_snd_le (n : Nat) (d : ℚ) (timeline now : Nat) :
    (clockQuery n d timeline now).2 ≤ n - 1 := by
  unfold clockQuery
  by_cases h : ((n - 1 : Nat) : ℚ) < ((now - timeline : Nat) : ℚ) / d
  · rw [if_pos h]
    exact Nat.zero_le _
  · rw [if_neg h]
    have hfloor : Int.floor (((now - timeline : Nat) : ℚ) / d) ≤ ((n - 1 : Nat) : ℤ) := by
      calc Int.floor (((now - timeline : Nat) : ℚ) / d)
          ≤ Int.floor (((n - 1 : Nat) : ℚ)) := Int.floor_le_floor (not_lt.mp h)
        _ = ((n - 1 : Nat) : ℤ) := Int.floor_natCast _
    exact Int.toNat_le.mpr hfloor

/-- An arena lookup below the length succeeds. -/
lemma lookup_isSome_of_lt {α : Type} (a : Arena α) (i : Nat) (h : i < a.length) :
    ∃ x, a.lookup i = some x := by
  unfold Arena.lookup
  rw [List.get?_eq_get h]
  exact ⟨_, rfl⟩

/-- Every loaded animation sequence is non-empty. -/
lemma animationLengths_pos (a v : Nat)
    (h : animationLengths.get? a = some v) : 1 ≤ v := by
  rcases a with _ | _ | _ | a <;>
    simp [animationLengths] at h <;> omega

/-- The input phase only ever selects animation 0, 1 or 2. -/
lemma inputPhase_animation_lt_three (k : Keys) (flip0 : Bool) :
    (inputPhase k flip0).current_animation < 3 := by
  rcases k with ⟨r, l, s, z⟩
  cases r <;> cases l <;> cases s <;> cases z <;>
    simp [inputPhase, horizontalPhase]

/-- Queueing forces on a valid handle succeeds and keeps the body count. -/
lemma applyForces_isSome (h : Nat) (fs : List Vec2) (bodies : Arena Body)
    (hh : h < bodies.length) :
    ∃ bodies2, applyForces h fs bodies = some bodies2 ∧
      bodies2.length = bodies.length := by
  induction fs generalizing bodies with
  | nil => exact ⟨bodies, rfl, rfl⟩
  | cons f rest ih =>
      obtain ⟨b, hb⟩ := lookup_isSome_of_lt bodies h hh
      obtain ⟨bodies2, h2, hlen2⟩ :=
        ih (bodies.set h (b.apply_force 0 f .accelerationChange false))
          (by rwa [List.length_set])
      refine ⟨bodies2, ?_, by rwa [List.length_set] at hlen2⟩
      unfold applyForces
      rw [hb, Option.some_bind]
      exact h2

/-- With three bodies, valid entity handles and a physics step that keeps the
body count (the stepping contract: it only advances the simulation), one
loop-body iteration always succeeds and preserves those invariants. -/
lemma frameBody_total {stepW : Arena Body → Arena Body} {texSize : Nat → Nat → Vec2}
    {ground block hero : GameObject} (k : Keys) (now : Nat) (st : LoopState)
    (hStep : ∀ bodies : Arena Body, (stepW bodies).length = bodies.length)
    (hlen : st.bodies.length = 3) (hanim : st.current_animation < 3)
    (hg : ground.body_handle < 3) (hb : block.body_handle < 3)
    (hh : hero.body_handle < 3) :
    ∃ st' cmds, frameBody stepW texSize ground block hero k now st = some (st', cmds) ∧
      st'.bodies.length = 3 ∧ st'.colliders = st.colliders ∧
      st'.current_animation < 3 := by
  have hlen1 : (stepW st.bodies).length = 3 := by rw [hStep, hlen]
  obtain ⟨bg, hbg⟩ := lookup_isSome_of_lt (stepW st.bodies) ground.body_handle (by omega)
  obtain ⟨bb, hbb⟩ := lookup_isSome_of_lt (stepW st.bodies) block.body_handle (by omega)
  obtain ⟨bh, hbh⟩ := lookup_isSome_of_lt (stepW st.bodies) hero.body_handle (by omega)
  obtain ⟨animLen, hal⟩ := lookup_isSome_of_lt animationLengths st.current_animation
    (by simpa [animationLengths] using hanim)
  have hone : 1 ≤ animLen := animationLengths_pos _ _ hal
  have hfr : (clockQuery animLen step st.timeline now).2 < animLen :=
    lt_of_le_of_lt (clockQuery_snd_le animLen step st.timeline now)
      (Nat.sub_lt (by omega) Nat.one_pos)
  obtain ⟨bodies2, hforces, hlen2⟩ :=
    applyForces_isSome hero.body_handle (inputPhase k st.flip).forces
      (stepW st.bodies) (by omega)
  have hdg : ground.debug_draw (stepW st.bodies) =
      some (.draw_rectangle (bg.pos.1 - ground.width) (bg.pos.2 - ground.height)
        ground.width ground.height .red) := by
    unfold GameObject.debug_draw
    rw [hbg]
    rfl
  have hdb : block.debug_draw (stepW st.bodies) =
      some (.draw_rectangle (bb.pos.1 - block.width) (bb.pos.2 - block.height)
        block.width block.height .red) := by
    unfold GameObject.debug_draw
    rw [hbb]
    rfl
  have hdh : hero.debug_draw (stepW st.bodies) =
      some (.draw_rectangle (bh.pos.1 - hero.width) (bh.pos.2 - hero.height)
        hero.width hero.height .red) := by
    unfold GameObject.debug_draw
    rw [hbh]
    rfl
  refine ⟨{ st with
              bodies := bodies2,
              current_frame := (clockQuery animLen step st.timeline now).2,
              timeline := (clockQuery animLen step st.timeline now).1,
              current_animation := (inputPhase k st.flip).current_animation,
              flip := (inputPhase k st.flip).flip },
    [.clear_background .white,
     .draw_rectangle (bg.pos.1 - ground.width) (bg.pos.2 - ground.height)
       ground.width ground.height .red,
     .draw_rectangle (bb.pos.1 - block.width) (bb.pos.2 - block.height)
       block.width block.height .red,
     .draw_rectangle (bh.pos.1 - hero.width) (bh.pos.2 - hero.height)
       hero.width hero.height .red,
     .draw_texture_ex st.current_animation (clockQuery animLen step st.timeline now).2
       (bh.pos.1 - (texSize st.current_animation
         (clockQuery animLen step st.timeline now).2).1 / 2)
       (bh.pos.2 - (texSize st.current_animation
         (clockQuery animLen step st.timeline now).2).2 / 2)
       (texSize st.current_animation (clockQuery animLen step st.timeline now).2).1
       (texSize st.current_animation (clockQuery animLen step st.timeline now).2).2
       st.flip], ?_,
    by simpa using hlen2.trans hlen1, rfl,
    inputPhase_animation_lt_three k st.flip⟩
  simp only [frameBody]
  rw [hdg, Option.some_bind, hdb, Option.some_bind, hdh, Option.some_bind,
    show animationLengths.get? st.current_animation = some animLen from hal,
    Option.some_bind, if_pos hfr]
  unfold GameObject.rigid_body
  rw [hbh, Option.some_bind, hforces, Option.some_bind]

/-- A whole session run succeeds and preserves the invariants, whatever keys
are pressed and whenever the frames happen. -/
lemma runFrames_total {stepW : Arena Body → Arena Body} {texSize : Nat → Nat → Vec2}
    {ground block hero : GameObject} (inputs : List (Keys × Nat)) (st : LoopState)
    (hStep : ∀ bodies : Arena Body, (stepW bodies).length = bodies.length)
    (hlen : st.bodies.length = 3) (hanim : st.current_animation < 3)
    (hg : ground.body_handle < 3) (hb : block.body_handle < 3)
    (hh : hero.body_handle < 3) :
    ∃ st', runFrames stepW texSize ground block hero inputs st = some st' ∧
      st'.bodies.length = 3 ∧ st'.colliders = st.colliders ∧
      st'.current_animation < 3 := by
  induction inputs generalizing st with
  | nil => exact ⟨st, rfl, hlen, rfl, hanim⟩
  | cons kn rest ih =>
      obtain ⟨k, n⟩ := kn
      obtain ⟨st1, cmds1, heq, hlen1, hcol1, hanim1⟩ :=
        @frameBody_total stepW texSize ground block hero k n st
          hStep hlen hanim hg hb hh
      obtain ⟨st2, heq2, hlen2, hcol2, hanim2⟩ := ih st1 hlen1 hanim1
      refine ⟨st2, ?_, hlen2, hcol2.trans hcol1, hanim2⟩
      unfold runFrames
      rw [heq, Option.some_bind]
      exact heq2

/-- The handles and counts `main`'s setup produces: bodies 0, 1, 2 and
colliders 0, 1, 2 for ground, block, hero; three of each; idle selected. -/
lemma mainInit_facts (sw : ℚ) (t0 : Nat) :
    (mainInit sw t0).1.body_handle = 0 ∧
    (mainInit sw t0).2.1.body_handle = 1 ∧
    (mainInit sw t0).2.2.1.body_handle = 2 ∧
    (mainInit sw t0).1.collider_handle = 0 ∧
    (mainInit sw t0).2.1.collider_handle = 1 ∧
    (mainInit sw t0).2.2.1.collider_handle = 2 ∧
    (mainInit sw t0).2.2.2.bodies.length = 3 ∧
    (mainInit sw t0).2.2.2.colliders.length = 3 ∧
    (mainInit sw t0).2.2.2.current_animation = 0 :=
  ⟨rfl, rfl, rfl, rfl, rfl, rfl, rfl, rfl, rfl⟩

/-! Claim C8. -/

/-- Claim C8: bodies and colliders are inserted once at session start and the
loop never removes any (the external step only advances the simulation, which
is the `hStep` contract), so every session run succeeds — no unwrap of a
body/collider lookup can fail — and at its end every entity's body and
collider handle still resolves to a live entry. -/
theorem entity_handles_live_for_session
    (stepW : Arena Body → Arena Body) (texSize : Nat → Nat → Vec2)
    (sw : ℚ) (t0 : Nat) (inputs : List (Keys × Nat))
    (hStep : ∀ bodies : Arena Body, (stepW bodies).length = bodies.length) :
    ∃ st', runFrames stepW texSize (mainInit sw t0).1 (mainInit sw t0).2.1
        (mainInit sw t0).2.2.1 inputs (mainInit sw t0).2.2.2 = some st' ∧
      (∃ b, st'.bodies.lookup (mainInit sw t0).1.body_handle = some b) ∧
      (∃ b, st'.bodies.lookup (mainInit sw t0).2.1.body_handle = some b) ∧
      (∃ b, st'.bodies.lookup (mainInit sw t0).2.2.1.body_handle = some b) ∧
      (∃ c, st'.colliders.lookup (mainInit sw t0).1.collider_handle = some c) ∧
      (∃ c, st'.colliders.lookup (mainInit sw t0).2.1.collider_handle = some c) ∧
      (∃ c, st'.colliders.lookup (mainInit sw t0).2.2.1.collider_handle = some c) := by
  obtain ⟨st', heq, hlen, hcol, hanim⟩ :=
    @runFrames_total stepW texSize (mainInit sw t0).1 (mainInit sw t0).2.1
      (mainInit sw t0).2.2.1 inputs (mainInit sw t0).2.2.2 hStep
      ((mainInit_facts sw t0).2.2.2.2.2.2.1)
      (by rw [(mainInit_facts sw t0).2.2.2.2.2.2.2.2]; norm_num)
      (by rw [(mainInit_facts sw t0).1]; norm_num)
      (by rw [(mainInit_facts sw t0).2.1]; norm_num)
      (by rw [(mainInit_facts sw t0).2.2.1]; norm_num)
  have hcollen : st'.colliders.length = 3 := by
    rw [hcol]
    rfl
  refine ⟨st', heq, ?_, ?_, ?_, ?_, ?_, ?_⟩
  · exact lookup_isSome_of_lt _ _ (by rw [hlen, (mainInit_facts sw t0).1]; norm_num)
  · exact lookup_isSome_of_lt _ _ (by rw [hlen, (mainInit_facts sw t0).2.1]; norm_num)
  · exact lookup_isSome_of_lt _ _ (by rw [hlen, (mainInit_facts sw t0).2.2.1]; norm_num)
  · exact lookup_isSome_of_lt _ _
      (by rw [hcollen, (mainInit_facts sw t0).2.2.2.1]; norm_num)
  · exact lookup_isSome_of_lt _ _
      (by rw [hcollen, (mainInit_facts sw t0).2.2.2.2.1]; norm_num)
  · exact lookup_isSome_of_lt _ _
      (by rw [hcollen, (mainInit_facts sw t0).2.2.2.2.2.1]; norm_num)

/-- Witness for C8: identity physics step, one frame with keys held; the
session run succeeds and all six handles stay live. -/
theorem entity_handles_live_for_session_witness :
    ∃ st', runFrames id testTexSize (mainInit 800 0).1 (mainInit 800 0).2.1
        (mainInit 800 0).2.2.1 [(testKeys, 100)] (mainInit 800 0).2.2.2 = some st' ∧
      (∃ b, st'.bodies.lookup (mainInit 800 0).1.body_handle = some b) ∧
      (∃ b, st'.bodies.lookup (mainInit 800 0).2.1.body_handle = some b) ∧
      (∃ b, st'.bodies.lookup (mainInit 800 0).2.2.1.body_handle = some b) ∧
      (∃ c, st'.colliders.lookup (mainInit 800 0).1.collider_handle = some c) ∧
      (∃ c, st'.colliders.lookup (mainInit 800 0).2.1.collider_handle = some c) ∧
      (∃ c, st'.colliders.lookup (mainInit 800 0).2.2.1.collider_handle = some c) :=
  entity_handles_live_for_session id testTexSize 800 0 [(testKeys, 100)]
    (fun _ => rfl)

/-! Claim C10. -/

/-- Claim C10: the active-sequence selector starts at 0 and every loop
iteration leaves it one of 0, 1, 2, so indexing the three-sequence animations
vector with it always succeeds. -/
theorem current_animation_always_in_bounds (sw : ℚ) (t0 : Nat) :
    (mainInit sw t0).2.2.2.current_animation = 0 ∧
    (∀ (stepW : Arena Body → Arena Body) (texSize : Nat → Nat → Vec2)
      (ground block hero : GameObject) (k : Keys) (now : Nat)
      (st st' : LoopState) (cmds : List RenderCmd),
      frameBody stepW texSize ground block hero k now st = some (st', cmds) →
      st'.current_animation < animationLengths.length) ∧
    (∀ a : Nat, a < animationLengths.length →
      ∃ v, animationLengths.get? a = some v) := by
  refine ⟨(mainInit_facts sw t0).2.2.2.2.2.2.2.2, ?_, ?_⟩
  · intro stepW texSize ground block hero k now st st' cmds h
    obtain ⟨r1, r2, r3, animLen, heroBody, bodies2, _, _, _, _, _, _, _,
      hst, _⟩ := frameBody_inv h
    subst hst
    exact inputPhase_animation_lt_three k st.flip
  · intro a ha
    exact lookup_isSome_of_lt animationLengths a ha

/-- Witness for C10: the initial selector is 0, one concrete frame leaves it
at 2 (< 3), and index 2 still resolves to a sequence. -/
theorem current_animation_always_in_bounds_witness :
    (mainInit 800 0).2.2.2.current_animation = 0 ∧
    testStateAfter.current_animation < animationLengths.length ∧
    (∃ v, animationLengths.get? 2 = some v) := by
  have h := current_animation_always_in_bounds 800 0
  exact ⟨h.1, h.2.1 id testTexSize testGround testBlock testHero testKeys 100
    testState testStateAfter testCmds testFrame_eq,
    h.2.2 2 (by norm_num [animationLengths])⟩

end NewGame
